import Mathlib

/-!
Verification development for the visible fragments of the repository:
a Python-runtime installer (`jupyterServerInstallation.ts`), a process
environment shim (`vs/base/common/process.ts`) and a web-worker factory
(`DefaultWorkerFactory`).

The TypeScript code is shallowly embedded: every asynchronous operation is
made explicit by an environment record (`Scenario`) describing the outcome
of each I/O event, and each operation returns the observable side effects
it performs together with its result.  Promise and event-loop semantics
are modelled faithfully: a promise settles at the *first*
`resolve`/`reject` call — later calls still execute their surrounding side
effects but cannot change the settled value — and the awaiting
continuation drains as a microtask before any later I/O macrotask.  Each
pipeline step therefore reports its effects split into `pre` (everything
up to the end of the macrotask or microtask body in which the first settle
runs) and `post` (the effects of later I/O callbacks, such as the download
stream's `close` handler after an early rejection or the `fs.unlink`
completion callback after the early `resolve`); the caller's continuation
effects are placed between the two.
-/

/-! ## Path and platform model (node `path` module) -/

/-- Path separator: `\` on Windows, `/` elsewhere. -/
def pathSep (isWin : Bool) : String := if isWin then "\\" else "/"

/-- Model of `path.delimiter`: `;` on Windows, `:` elsewhere. -/
def pathDelimiter (isWin : Bool) : String := if isWin then ";" else ":"

/-- Join a list of segments with a separator. -/
def joinSegs (sep : String) : List String → String
  | [] => ""
  | [s] => s
  | s :: rest => s ++ sep ++ joinSegs sep rest

/-- Model of `path.join` for the simple segments used in this code base: empty
segments are dropped (as node's `path.join` does) and the remaining ones
are joined with the platform separator.  No `.`/`..` normalisation is
needed by any call site in the source. -/
def pathJoin (isWin : Bool) (segs : List String) : String :=
  joinSegs (pathSep isWin) (segs.filter (fun s => s != ""))

namespace JupyterServerInstallation

/-! ## Localised messages (string constants from the source) -/

def msgInstallPkgProgress : String := "Notebook dependencies installation is in progress"

def msgPythonDownloadComplete : String := "Python download is complete"

def msgPythonDownloadError : String := "Error while downloading python setup"

def msgPythonDownloadPending : String := "Downloading python package"

def msgPythonUnpackPending : String := "Unpacking python package"

def msgPythonDirectoryError : String := "Error while creating python installation directory"

def msgPythonUnpackError : String := "Error while unpacking python bundle"

def msgInstallPkgStart : String := "Installing Notebook dependencies, see Tasks view for more information"

def msgInstallPkgFinish : String := "Notebook dependencies installation is complete"

def msgPythonRunningError : String := "Cannot overwrite existing Python installation while python is running."

def msgPendingInstallError : String := "Another Python installation is currently in progress."

def msgDependenciesInstallationFailed (errorMessage : String) : String :=
  "Installing Notebook dependencies failed with error: " ++ errorMessage

def msgDownloadPython (platformId : String) (pythonDownloadUrl : String) : String :=
  "Downloading local python for platform: " ++ platformId ++ " to " ++ pythonDownloadUrl

/-! ## Installer state

Mirrors the mutable fields of class `JupyterServerInstallation`:
`_pythonInstallationPath`, `_pythonExecutable`, `pythonBinPath`,
`_pythonPackageDir`, `pythonEnvVarPath`, `_forceInstall`,
`_installInProgress`. -/

structure InstallerState where
  pythonInstallationPath : String
  pythonExecutable : String
  pythonBinPath : String
  pythonPackageDir : String
  pythonEnvVarPath : String
  forceInstall : Bool
  installInProgress : Bool
deriving DecidableEq

/-- Model of `JupyterServerInstallation.getPythonExePath`:
`path.join(installPath, bundleVersion, win ? 'python.exe' : 'bin/python3')`.
`bundleVersion` (`constants.pythonBundleVersion`) is a parameter because
`constants.ts` is not part of the visible sources. -/
def getPythonExePath (isWin : Bool) (bundleVersion : String) (pythonInstallPath : String) : String :=
  pathJoin isWin [pythonInstallPath, bundleVersion,
    if isWin then "python.exe" else "bin/python3"]

/-- Model of `configurePackagePaths`: recompute every derived path from the current
`_pythonInstallationPath`.  `envPath` is the ambient `process.env['PATH']`.
The ambient deletion of `PYTHONPATH`/`PYTHONSTARTUP`/`PYTHONHOME` and the
construction of `execOptions` only affect host process state, which no
claim mentions, and are not modelled. -/
def configurePackagePaths (isWin : Bool) (bundleVersion : String) (envPath : String)
    (st : InstallerState) : InstallerState :=
  let pythonSourcePath := pathJoin isWin [st.pythonInstallationPath, bundleVersion]
  let packageDir := pathJoin isWin [pythonSourcePath, "offlinePackages"]
  let pythonBinPathSuffix := if isWin then "" else "bin"
  let exe := getPythonExePath isWin bundleVersion st.pythonInstallationPath
  let binPath := pathJoin isWin [pythonSourcePath, pythonBinPathSuffix]
  let d := pathDelimiter isWin
  let envVar0 := envPath
  let envVar1 :=
    if isWin then pathJoin isWin [pythonSourcePath, "Scripts"] ++ d ++ envVar0 else envVar0
  let envVar2 := binPath ++ d ++ envVar1
  { st with
      pythonExecutable := exe
      pythonBinPath := binPath
      pythonPackageDir := packageDir
      pythonEnvVarPath := envVar2 }

end JupyterServerInstallation

/-! ## `DefaultWorkerFactory` (worker factory fragment)

The factory's observable behaviour: `create` first increments the static
counter `LAST_WORKER_ID` (so an id is consumed even when the call throws),
then throws the recorded error if one is set, and otherwise constructs a
`WebWorker` with the fresh id, wiring an error callback that records the
error in `_webWorkerFailedBeforeError`.  `createdIds` records, in order,
the ids of the workers actually constructed.  The initial field value
`false` and the truthiness test `if (this._webWorkerFailedBeforeError)` are
modelled by `Option`: `none` = falsy initial value, `some err` = a recorded
error (error events are always truthy objects).  `logOnceWebWorkerWarning`
and the forwarding to the caller's `onErrorCallback` have no effect on the
factory and are not modelled. -/

structure FactoryState where
  lastWorkerId : Nat
  webWorkerFailedBeforeError : Option String
  createdIds : List Nat
deriving DecidableEq

/-- External stimuli to one factory instance: a call to `create`, or the
error callback of one of its workers firing with an error. -/
inductive FactoryEvent where
  | createCall
  | errorFired (err : String)
deriving DecidableEq

namespace DefaultWorkerFactory

def isErrorFired : FactoryEvent → Bool
  | FactoryEvent.errorFired _ => true
  | FactoryEvent.createCall => false

/-- Model of `DefaultWorkerFactory.create`: bump the id counter, then either throw
the recorded error (constructing nothing) or construct a worker with the
fresh id. -/
def create (s : FactoryState) : FactoryState × Except String Nat :=
  let workerId := s.lastWorkerId + 1
  match s.webWorkerFailedBeforeError with
  | some e => ({ s with lastWorkerId := workerId }, Except.error e)
  | none =>
      ({ s with lastWorkerId := workerId, createdIds := s.createdIds ++ [workerId] },
       Except.ok workerId)

/-- The wrapped error callback: record the error. -/
def fireError (s : FactoryState) (err : String) : FactoryState :=
  { s with webWorkerFailedBeforeError := some err }

/-- Run a sequence of events against a factory, collecting the result of
every `create` call. -/
def run : FactoryState → List FactoryEvent → FactoryState × List (Except String Nat)
  | s, [] => (s, [])
  | s, FactoryEvent.createCall :: rest =>
      let step := create s
      let out := run step.1 rest
      (out.1, step.2 :: out.2)
  | s, FactoryEvent.errorFired err :: rest => run (fireError s err) rest

/-- A fresh factory: `LAST_WORKER_ID = 0`, no recorded error, no workers. -/
def initFactory : FactoryState :=
  { lastWorkerId := 0, webWorkerFailedBeforeError := none, createdIds := [] }

end DefaultWorkerFactory

/-! ## `vs/base/common/process.ts` (process shim)

`nextTick` delegates to `setImmediate` in the shim; it is host scheduling,
carries no data, and is not modelled. -/

/-- The shape consumed from the global `process` object: `cwd()` is
modelled by the string it returns, `env` by a property list. -/
structure IProcess where
  platform : String
  env : List (String × String)
  cwdResult : String
deriving DecidableEq

/-- The `isWindows` / `isMacintosh` flags imported from
`vs/base/common/platform` (that file is not part of the visible sources;
the flags are free parameters). -/
structure PlatformFlags where
  isWindows : Bool
  isMacintosh : Bool
deriving DecidableEq

namespace VsProcess

/-- Model of `safeProcess`: the global `process` object when defined, otherwise the
shim with `cwd() = '/'`, an empty `env` and the flag-derived platform. -/
def safeProcess (flags : PlatformFlags) (globalProcess : Option IProcess) : IProcess :=
  match globalProcess with
  | some p => p
  | none =>
      { platform := if flags.isWindows then "win32"
                    else if flags.isMacintosh then "darwin" else "linux"
        env := []
        cwdResult := "/" }

/-- Export `cwd = safeProcess.cwd`. -/
def cwd (flags : PlatformFlags) (globalProcess : Option IProcess) : String :=
  (safeProcess flags globalProcess).cwdResult

/-- Export `env = safeProcess.env`. -/
def env (flags : PlatformFlags) (globalProcess : Option IProcess) : List (String × String) :=
  (safeProcess flags globalProcess).env

/-- Export `platform = safeProcess.platform`. -/
def platform (flags : PlatformFlags) (globalProcess : Option IProcess) : String :=
  (safeProcess flags globalProcess).platform

end VsProcess

/-! ## Observable side effects of the install pipeline -/

inductive TaskStatus where
  | inProgress
  | succeeded
  | failed
deriving DecidableEq

inductive Effect where
  | updateStatus (status : TaskStatus) (msg : String)
  | showInfoMessage (msg : String)
  | showErrorMessage (msg : String)
  | appendLine (msg : String)
  | mkdirs (dir : String)
  | removeSync (p : String)
  | decompressArchive (archive : String) (dest : String)
  | unlink (p : String)
  | runCommand (cmd : String)
  | updateConfig (pythonPath : String)
  | startBackgroundOperation
deriving DecidableEq

/-- The statuses carried by the `updateStatus` effects of a trace, in
order. -/
def statusUpdates (l : List Effect) : List TaskStatus :=
  l.filterMap fun e =>
    match e with
    | Effect.updateStatus s _ => some s
    | _ => none

/-- The status carried by the last `updateStatus` effect of a trace, i.e.
the status the background task ends in. -/
def lastUpdateStatus (l : List Effect) : Option TaskStatus :=
  (statusUpdates l).getLast?

def isDecompressEffect : Effect → Bool
  | Effect.decompressArchive _ _ => true
  | _ => false

/-- Whether a trace executes the decompress (unpack) step. -/
def runsDecompress (l : List Effect) : Bool :=
  l.any isDecompressEffect

/-! ## Environment of one `startInstallProcess` call

Each field fixes the outcome of one I/O event of the pipeline, in the
order the source performs them. -/

structure Scenario where
  /-- Value of `process.platform === constants.winPlatform` -/
  isWin : Bool
  /-- Value of `utils.getOSPlatform() === Platform.Mac` -/
  isMac : Bool
  /-- Value of `utils.getOSPlatformId()` -/
  platformId : String
  /-- Value of `constants.pythonBundleVersion` (from the invisible `constants.ts`) -/
  bundleVersion : String
  /-- Value of `constants.pythonVersion` -/
  pythonVersion : String
  /-- Value of `constants.sparkMagicVersion` -/
  sparkMagicVersion : String
  /-- ambient `process.env['PATH']` -/
  envPath : String
  /-- Outcome of `fs.existsSync` -/
  fsExists : String → Bool
  /-- Outcome of `fs.open(pythonExePath, 'r+')` in `isPythonRunning`: `none` means the
  open succeeded, `some code` the `err.code` of the failure -/
  openErrCode : Option String
  /-- error passed to the `fs.mkdirs` callback -/
  mkdirsErr : Option String
  /-- transport error of `request.get` (the `error` event), before any
  response arrives -/
  transportErr : Option String
  /-- Value of `response.statusCode` -/
  statusCode : Nat
  /-- Value of `response.statusMessage` -/
  statusMessage : String
  /-- error thrown by `fs.removeSync` of the stale extracted copy -/
  removeSyncErr : Option String
  /-- error with which `decompress` rejects -/
  decompressErr : Option String
  /-- error passed to the `fs.unlink` callback deleting the archive -/
  unlinkErr : Option String
  /-- non-zero-exit failure of the pip requirements subprocess -/
  jupyterPipErr : Option String
  /-- non-zero-exit failure of the sparkmagic wheel subprocess -/
  sparkPipErr : Option String

namespace JupyterServerInstallation

/-- The platform-specific distribution URL (`switch (utils.getOSPlatform())`). -/
def pythonDownloadUrl (sc : Scenario) : String :=
  if sc.isWin then "https://go.microsoft.com/fwlink/?linkid=2074021"
  else if sc.isMac then "https://go.microsoft.com/fwlink/?linkid=2065976"
  else "https://go.microsoft.com/fwlink/?linkid=2065975"

/-- The artifact name `python-#pythonversion-#platform-#bundleversion.#extension`
after the four placeholder replacements (each placeholder occurs exactly
once in the template, so the replacements amount to concatenation). -/
def packageName (sc : Scenario) : String :=
  "python-" ++ sc.pythonVersion ++ "-" ++ sc.platformId ++ "-" ++ sc.bundleVersion ++ "." ++
    (if sc.isWin then "zip" else "tar.gz")

/-- Model of `isPythonRunning`: open the executable for exclusive write; `EBUSY` or
`EPERM` mean "running", any other failure — and a successful open — mean
"not running".  (On a successful open the source also closes the handle;
that has no observable consequence for the claims.) -/
def isPythonRunning (sc : Scenario) : Bool :=
  match sc.openErrCode with
  | none => false
  | some code => code == "EBUSY" || code == "EPERM"

/-- Split of one pipeline step's observable effects around its promise's
first settlement.  `pre` holds every effect up to the end of the macrotask
or microtask body in which the first `resolve`/`reject` runs — these are
visible before the awaiting continuation drains — and `post` holds the
effects of later I/O callbacks (the stream `close` chain after an early
rejection, the `fs.unlink` completion callback after the early
`resolve()`), which fire only after that continuation has drained.
`settles` lists every `resolve`/`reject` call in chronological order; the
first entry is the promise's value, the later entries are no-ops. -/
structure StepSplit where
  pre : List Effect
  post : List Effect
  settles : List (Except String Unit)

/-- Model of `installPythonPackage`: download + unpack.  Faithful quirks
kept from the source: the `fs.mkdirs` callback does not return after
`reject`, so the request is issued anyway; the `response` handler does not
return after rejecting a non-200 status, so its logging line still runs,
the stream is still piped and the whole `close` chain still fires — but
only after the rejection's continuation has drained, so those effects are
`post`; the close handler does not return after the stale-copy `reject`
and still calls `decompress`; and `resolve()` is called right after
*initiating* `fs.unlink`, so an unlink failure both rejects too late to
matter and reports its status update only after the resolution's
continuation.  Per-chunk `data` progress lines are not modelled (they only
log), and the `(0 / N MB)` line logged on `response` is represented
without its numbers. -/
def installPythonPackage (sc : Scenario) (st : InstallerState) : StepSplit :=
  let url := pythonDownloadUrl sc
  let pythonPackagePathLocal := st.pythonInstallationPath ++ "/" ++ packageName sc
  let pythonSourcePath := pathJoin sc.isWin [st.pythonInstallationPath, sc.bundleVersion]
  let startEffs : List Effect :=
    [Effect.updateStatus TaskStatus.inProgress (msgDownloadPython sc.platformId url),
     Effect.mkdirs st.pythonInstallationPath]
  -- stale-copy removal inside the close macrotask
  let staleEffs : List Effect :=
    if sc.fsExists pythonSourcePath then
      match sc.removeSyncErr with
      | some _ => [Effect.removeSync pythonSourcePath,
                   Effect.updateStatus TaskStatus.inProgress msgPythonUnpackError]
      | none => [Effect.removeSync pythonSourcePath]
    else []
  let staleSettles : List (Except String Unit) :=
    if sc.fsExists pythonSourcePath then
      match sc.removeSyncErr with
      | some e => [Except.error e]
      | none => []
    else []
  -- the full close macrotask: the `decompress(...)` call itself is made
  -- synchronously inside it, its promise settles later
  let closeEffs : List Effect :=
    Effect.appendLine msgPythonUnpackPending :: staleEffs ++
      [Effect.decompressArchive pythonPackagePathLocal st.pythonInstallationPath]
  -- body of the microtask in which the decompress promise completes
  -- (the `.catch` body, or the `.then` body initiating the unlink)
  let settleBodyEffs : List Effect :=
    match sc.decompressErr with
    | some _ => [Effect.updateStatus TaskStatus.inProgress msgPythonUnpackError]
    | none => [Effect.unlink pythonPackagePathLocal]
  -- the unlink completion callback, a macrotask firing only after the
  -- continuation of the already-resolved promise has drained
  let unlinkLaterEffs : List Effect :=
    match sc.decompressErr with
    | some _ => []
    | none =>
      match sc.unlinkErr with
      | some _ => [Effect.updateStatus TaskStatus.inProgress msgPythonUnpackError]
      | none => []
  let decompressSettles : List (Except String Unit) :=
    match sc.decompressErr with
    | some e => [Except.error e]
    | none =>
      match sc.unlinkErr with
      | some e => [Except.ok (), Except.error e]
      | none => [Except.ok ()]
  match sc.mkdirsErr with
  | some e =>
    match sc.transportErr with
    | some e2 =>
        { pre := startEffs ++
            [Effect.updateStatus TaskStatus.inProgress msgPythonDirectoryError]
          post := [Effect.updateStatus TaskStatus.inProgress msgPythonDownloadError]
          settles := [Except.error e, Except.error e2] }
    | none =>
        { pre := startEffs ++
            [Effect.updateStatus TaskStatus.inProgress msgPythonDirectoryError]
          post := (if sc.statusCode ≠ 200 then
              [Effect.updateStatus TaskStatus.inProgress msgPythonDownloadError]
            else []) ++
            [Effect.appendLine msgPythonDownloadPending] ++
            (closeEffs ++ (settleBodyEffs ++ unlinkLaterEffs))
          settles := Except.error e ::
            ((if sc.statusCode ≠ 200 then [Except.error sc.statusMessage] else []) ++
              (staleSettles ++ decompressSettles)) }
  | none =>
    match sc.transportErr with
    | some e =>
        { pre := startEffs ++
            [Effect.updateStatus TaskStatus.inProgress msgPythonDownloadError]
          post := []
          settles := [Except.error e] }
    | none =>
      if sc.statusCode ≠ 200 then
        { pre := startEffs ++
            [Effect.updateStatus TaskStatus.inProgress msgPythonDownloadError,
             Effect.appendLine msgPythonDownloadPending]
          post := closeEffs ++ (settleBodyEffs ++ unlinkLaterEffs)
          settles := Except.error sc.statusMessage :: (staleSettles ++ decompressSettles) }
      else
        if sc.fsExists pythonSourcePath && sc.removeSyncErr.isSome then
          { pre := startEffs ++ [Effect.appendLine msgPythonDownloadPending] ++ closeEffs
            post := settleBodyEffs ++ unlinkLaterEffs
            settles := staleSettles ++ decompressSettles }
        else
          { pre := startEffs ++ [Effect.appendLine msgPythonDownloadPending] ++
              (closeEffs ++ settleBodyEffs)
            post := unlinkLaterEffs
            settles := staleSettles ++ decompressSettles }

/-- The value a promise settles to: the first `resolve`/`reject` call wins.
(The settle list produced by `installPythonPackage` is never empty; the
default is irrelevant.) -/
def firstSettle (settles : List (Except String Unit)) : Except String Unit :=
  settles.headD (Except.ok ())

/-- Model of `installJupyterProsePackage`: Windows-only pip install of the bundled
requirements manifest; immediately resolved elsewhere. -/
def installJupyterProsePackage (sc : Scenario) (st : InstallerState) :
    List Effect × Except String Unit :=
  if sc.isWin then
    let requirements := pathJoin true [st.pythonPackageDir, "requirements.txt"]
    let installJupyterCommand :=
      "\"" ++ st.pythonExecutable ++ "\" -m pip install --no-index -r \"" ++ requirements ++
        "\" --find-links \"" ++ st.pythonPackageDir ++ "\" --no-warn-script-location"
    match sc.jupyterPipErr with
    | some e =>
        ([Effect.appendLine "Installing required packages to run Notebooks...",
          Effect.runCommand installJupyterCommand], Except.error e)
    | none =>
        ([Effect.appendLine "Installing required packages to run Notebooks...",
          Effect.runCommand installJupyterCommand,
          Effect.appendLine "... Jupyter installation complete."], Except.ok ())
  else ([], Except.ok ())

/-- Model of `installSparkMagic`: Windows-only pip install of the sparkmagic wheel;
immediately resolved elsewhere. -/
def installSparkMagic (sc : Scenario) (st : InstallerState) :
    List Effect × Except String Unit :=
  if sc.isWin then
    let sparkWheel := pathJoin true [st.pythonPackageDir,
      "sparkmagic-" ++ sc.sparkMagicVersion ++ "-py3-none-any.whl"]
    let installSparkMagicCmd :=
      "\"" ++ st.pythonExecutable ++ "\" -m pip install --no-index \"" ++ sparkWheel ++
        "\" --find-links \"" ++ st.pythonPackageDir ++ "\" --no-warn-script-location"
    match sc.sparkPipErr with
    | some e =>
        ([Effect.appendLine "Installing SparkMagic...",
          Effect.runCommand installSparkMagicCmd], Except.error e)
    | none =>
        ([Effect.appendLine "Installing SparkMagic...",
          Effect.runCommand installSparkMagicCmd], Except.ok ())
  else ([], Except.ok ())

/-- Output of `installDependencies`: the effects visible by the time its
promise's continuation has drained (`pre`), the effects of pipeline I/O
callbacks that fire later (`post`), and the result. -/
structure DepSplit where
  pre : List Effect
  post : List Effect
  result : Except String Unit

/-- Model of `installDependencies`: the body run inside the background
operation.  Its `await` chain stops at the first rejected step.  The
continuation after `await installPythonPackage(...)` drains before that
step's later I/O callbacks, so its effects go into `pre` and the step's
`post` effects stay last.  (On Windows the pip steps are themselves
subprocess macrotasks whose order relative to a pending unlink callback is
not determined by the event loop; the model places all continuation
effects first — no claim depends on that Windows-only interleaving.) -/
def installDependencies (sc : Scenario) (st : InstallerState) : DepSplit :=
  if !(sc.fsExists st.pythonExecutable) || st.forceInstall then
    let preEffs : List Effect :=
      [Effect.showInfoMessage msgInstallPkgStart,
       Effect.appendLine msgInstallPkgProgress,
       Effect.updateStatus TaskStatus.inProgress msgInstallPkgProgress]
    let pkg := installPythonPackage sc st
    match firstSettle pkg.settles with
    | Except.error e =>
        { pre := preEffs ++ pkg.pre, post := pkg.post, result := Except.error e }
    | Except.ok _ =>
      let midEffs : List Effect :=
        [Effect.appendLine msgPythonDownloadComplete,
         Effect.updateStatus TaskStatus.inProgress msgPythonDownloadComplete]
      let jup := installJupyterProsePackage sc st
      match jup.2 with
      | Except.error e =>
          { pre := preEffs ++ pkg.pre ++ midEffs ++ jup.1, post := pkg.post
            result := Except.error e }
      | Except.ok _ =>
        let spark := installSparkMagic sc st
        match spark.2 with
        | Except.error e =>
            { pre := preEffs ++ pkg.pre ++ midEffs ++ jup.1 ++ spark.1, post := pkg.post
              result := Except.error e }
        | Except.ok _ =>
            { pre := preEffs ++ pkg.pre ++ midEffs ++ jup.1 ++ spark.1 ++
                [Effect.appendLine msgInstallPkgFinish,
                 Effect.updateStatus TaskStatus.succeeded msgInstallPkgFinish,
                 Effect.showInfoMessage msgInstallPkgFinish]
              post := pkg.post
              result := Except.ok () }
  else { pre := [], post := [], result := Except.ok () }

/-- Result of one `startInstallProcess` call: the settled value of the
returned promise, the installer state afterwards, and the effect trace. -/
structure InstallOutcome where
  result : Except String Unit
  state : InstallerState
  effects : List Effect

/-- Model of `startInstallProcess(forceInstall, installationPath?)`.

Faithful to the source: the two guards run before any mutation; the
in-progress flag is set, `_forceInstall` and (when supplied)
`_pythonInstallationPath` are updated and the derived paths recomputed;
then either the background operation runs `installDependencies` — whose
resolution updates the configuration, resolves the deferred and clears the
flag, and whose rejection marks the task `Failed`, shows the error,
rejects the deferred with the formatted message and clears the flag; both
continuations drain before the pipeline's trailing I/O callbacks, so their
effects precede `dep.post` — or,
when the executable already exists and `forceInstall` is false, the
configuration is updated and the deferred resolved *without the in-progress
flag ever being cleared* (exactly as in the source). -/
def startInstallProcess (sc : Scenario) (st : InstallerState)
    (forceInstall : Bool) (installationPath : Option String) : InstallOutcome :=
  if isPythonRunning sc then
    { result := Except.error msgPythonRunningError, state := st, effects := [] }
  else if st.installInProgress then
    { result := Except.error msgPendingInstallError, state := st, effects := [] }
  else
    let st1 : InstallerState :=
      { st with
          installInProgress := true
          forceInstall := forceInstall
          pythonInstallationPath := installationPath.getD st.pythonInstallationPath }
    let st2 := configurePackagePaths sc.isWin sc.bundleVersion sc.envPath st1
    if !(sc.fsExists st2.pythonExecutable) || st2.forceInstall then
      let dep := installDependencies sc st2
      match dep.result with
      | Except.ok _ =>
          { result := Except.ok ()
            state := { st2 with installInProgress := false }
            effects := Effect.startBackgroundOperation :: (dep.pre ++
              ([Effect.updateConfig st2.pythonInstallationPath] ++ dep.post)) }
      | Except.error e =>
          let errorMsg := msgDependenciesInstallationFailed e
          { result := Except.error errorMsg
            state := { st2 with installInProgress := false }
            effects := Effect.startBackgroundOperation :: (dep.pre ++
              ([Effect.updateStatus TaskStatus.failed errorMsg,
                Effect.showErrorMessage errorMsg] ++ dep.post)) }
    else
      { result := Except.ok ()
        state := st2
        effects := [Effect.updateConfig st2.pythonInstallationPath] }

/-! ## Static queries over the configuration store -/

/-- The `notebook` configuration object: `none` models a falsy
`notebookConfig`; `pythonPath = none` models an undefined or otherwise
falsy `notebookConfig[pythonPathConfigKey]` (so a recorded value is always
a non-empty string). -/
structure NotebookConfig where
  pythonPath : Option String
deriving DecidableEq

structure ApiWrapper where
  notebookConfig : Option NotebookConfig
deriving DecidableEq

/-- The raw recorded installation path, before the `existsSync` filter. -/
def recordedPythonPath (apiWrapper : Option ApiWrapper) : Option String :=
  (apiWrapper.bind fun a => a.notebookConfig).bind fun c => c.pythonPath

/-- Model of `getPythonPathSetting`: the recorded path, but only when the wrapper
and config objects are truthy and the recorded path exists on disk. -/
def getPythonPathSetting (fsExists : String → Bool) (apiWrapper : Option ApiWrapper) :
    Option String :=
  match apiWrapper with
  | none => none
  | some a =>
    match a.notebookConfig with
    | none => none
    | some c =>
      match c.pythonPath with
      | none => none
      | some configPythonPath =>
          if fsExists configPythonPath then some configPythonPath else none

/-- Model of `isPythonInstalled`: a static method — a function of the configuration
store and the file system only, with no `InstallerState` argument. -/
def isPythonInstalled (isWin : Bool) (bundleVersion : String)
    (fsExists : String → Bool) (apiWrapper : Option ApiWrapper) : Bool :=
  match getPythonPathSetting fsExists apiWrapper with
  | none => false
  | some pathSetting => fsExists (getPythonExePath isWin bundleVersion pathSetting)

end JupyterServerInstallation

/-! ## Concrete sample inputs (used by witnesses and counterexamples) -/

/-- An idle installer on Linux whose derived paths have not been queried
yet; `bundleVersion` values below follow the spec's scenario (`0.0.1`). -/
def stIdle : JupyterServerInstallation.InstallerState :=
  { pythonInstallationPath := "/home/u/py"
    pythonExecutable := ""
    pythonBinPath := ""
    pythonPackageDir := ""
    pythonEnvVarPath := ""
    forceInstall := false
    installInProgress := false }

/-- A Linux scenario in which every I/O step succeeds and nothing exists
on disk yet. -/
def scBase : Scenario :=
  { isWin := false
    isMac := false
    platformId := "linux-x64"
    bundleVersion := "0.0.1"
    pythonVersion := "3.6.6"
    sparkMagicVersion := "0.12.7"
    envPath := "BASEPATH"
    fsExists := fun _ => false
    openErrCode := none
    mkdirsErr := none
    transportErr := none
    statusCode := 200
    statusMessage := "OK"
    removeSyncErr := none
    decompressErr := none
    unlinkErr := none
    jupyterPipErr := none
    sparkPipErr := none }

open JupyterServerInstallation

/-! ## Helper lemmas -/

theorem append_ne_empty (s t : String) (h : s ≠ "") : s ++ t ≠ "" := by
  intro he
  apply h
  have hd := congrArg String.data he
  simp [String.data_append] at hd
  exact String.ext hd.1

theorem pathJoin_pair (isWin : Bool) (a b : String) (ha : a ≠ "") (hb : b ≠ "") :
    pathJoin isWin [a, b] = a ++ pathSep isWin ++ b := by
  simp [pathJoin, joinSegs, List.filter_cons, ha, hb]

theorem pathJoin_pair_empty (isWin : Bool) (a : String) :
    pathJoin isWin [a, ""] = a := by
  by_cases ha : a = ""
  · simp [pathJoin, joinSegs, List.filter_cons, ha]
  · simp [pathJoin, joinSegs, List.filter_cons, ha]

theorem pathJoin_triple (isWin : Bool) (a b c : String)
    (ha : a ≠ "") (hb : b ≠ "") (hc : c ≠ "") :
    pathJoin isWin [a, b, c] = a ++ pathSep isWin ++ b ++ pathSep isWin ++ c := by
  simp [pathJoin, joinSegs, List.filter_cons, ha, hb, hc, String.append_assoc]

theorem runsDecompress_append (l1 l2 : List Effect) :
    runsDecompress (l1 ++ l2) = (runsDecompress l1 || runsDecompress l2) := by
  simp [runsDecompress, List.any_append]

/-- For a non-200 response the decompress step is executed after the
rejection: the `post` effects always contain the decompress initiation. -/
theorem runsDecompress_post_non200 (sc : Scenario) (st : InstallerState)
    (hmk : sc.mkdirsErr = none) (htr : sc.transportErr = none)
    (hsc : sc.statusCode ≠ 200) :
    runsDecompress (installPythonPackage sc st).post = true := by
  simp [installPythonPackage, hmk, htr, hsc, runsDecompress, isDecompressEffect,
    List.any_append, List.any_cons]

/-- For a non-200 response the first settle is the rejection with the
response's status message. -/
theorem installPythonPackage_non200 (sc : Scenario) (st : InstallerState)
    (hmk : sc.mkdirsErr = none) (htr : sc.transportErr = none)
    (hsc : sc.statusCode ≠ 200) :
    firstSettle (installPythonPackage sc st).settles = Except.error sc.statusMessage := by
  simp [installPythonPackage, hmk, htr, hsc, firstSettle]

/-- When none of the trailing unpack steps fails, the post-settle effects
carry no status update. -/
theorem statusUpdates_post_clean (sc : Scenario) (st : InstallerState)
    (hmk : sc.mkdirsErr = none) (htr : sc.transportErr = none)
    (hsc : sc.statusCode ≠ 200)
    (hrm : sc.removeSyncErr = none) (hdc : sc.decompressErr = none)
    (hul : sc.unlinkErr = none) :
    statusUpdates (installPythonPackage sc st).post = [] := by
  cases hex : sc.fsExists (pathJoin sc.isWin [st.pythonInstallationPath, sc.bundleVersion]) <;>
    simp [installPythonPackage, hmk, htr, hsc, hrm, hdc, hul, hex, statusUpdates,
      List.filterMap_append, List.filterMap_cons]

/-- The caller's `Failed` update is the trace's last status update exactly
when the trailing post-settle effects carry none. -/
theorem lastUpdateStatus_failed_last (l post : List Effect) (m m2 : String)
    (hpost : statusUpdates post = []) :
    lastUpdateStatus (Effect.startBackgroundOperation :: (l ++
        ([Effect.updateStatus TaskStatus.failed m, Effect.showErrorMessage m2] ++ post)))
      = some TaskStatus.failed := by
  simp only [statusUpdates] at hpost
  simp [lastUpdateStatus, statusUpdates, List.filterMap_append, List.filterMap_cons, hpost]

/-! ## Claim theorems -/

/-- C10: when the global `process` object is undefined, the shim's exported
`cwd()` returns `/`, its exported `env` has no properties, and its exported
`platform` is `win32`, `darwin` or `linux` according to the platform flags;
when the global `process` object is defined, the exports are exactly that
object's `cwd`, `env` and `platform`. -/
theorem safeProcessExports (flags : PlatformFlags) :
    VsProcess.cwd flags none = "/"
    ∧ VsProcess.env flags none = []
    ∧ VsProcess.platform flags none
        = (if flags.isWindows then "win32" else if flags.isMacintosh then "darwin" else "linux")
    ∧ ∀ p : IProcess,
        VsProcess.cwd flags (some p) = p.cwdResult
        ∧ VsProcess.env flags (some p) = p.env
        ∧ VsProcess.platform flags (some p) = p.platform :=
  ⟨rfl, rfl, rfl, fun _ => ⟨rfl, rfl, rfl⟩⟩

/-- C7: the derived executable path is the installation path joined with
the bundle version and `python.exe` (Windows) or `bin/python3` (elsewhere);
with installation path `/home/u/py`, bundle version `0.0.1`, on Linux it is
`/home/u/py/0.0.1/bin/python3`, and the Windows-only package-install steps
(pip requirements and sparkmagic wheel) are skipped entirely. -/
theorem pythonExePathSpec (installPath bundleVersion : String)
    (hP : installPath ≠ "") (hB : bundleVersion ≠ "") :
    (getPythonExePath true bundleVersion installPath
        = installPath ++ "\\" ++ bundleVersion ++ "\\" ++ "python.exe"
      ∧ getPythonExePath false bundleVersion installPath
        = installPath ++ "/" ++ bundleVersion ++ "/" ++ "bin/python3")
    ∧ getPythonExePath false "0.0.1" "/home/u/py" = "/home/u/py/0.0.1/bin/python3"
    ∧ (∀ sc : Scenario, sc.isWin = false → ∀ st : InstallerState,
        installJupyterProsePackage sc st = ([], Except.ok ())
        ∧ installSparkMagic sc st = ([], Except.ok ())) := by
  refine ⟨⟨?_, ?_⟩, rfl, ?_⟩
  · exact pathJoin_triple true _ _ _ hP hB (by decide)
  · exact pathJoin_triple false _ _ _ hP hB (by decide)
  · intro sc hw st
    constructor
    · simp [installJupyterProsePackage, hw]
    · simp [installSparkMagic, hw]

/-- Witness for `pythonExePathSpec` at installation path `C:\py` and
bundle version `0.0.1`. -/
theorem pythonExePathSpecWitness :
    getPythonExePath true "0.0.1" "C:\\py" = "C:\\py" ++ "\\" ++ "0.0.1" ++ "\\" ++ "python.exe"
    ∧ installJupyterProsePackage scBase stIdle = ([], Except.ok ()) :=
  ⟨(pythonExePathSpec "C:\\py" "0.0.1" (by decide) (by decide)).1.1,
   ((pythonExePathSpec "C:\\py" "0.0.1" (by decide) (by decide)).2.2 scBase rfl stIdle).1⟩

/-- C2 counterexample: on Windows with installation path `C:\py`, bundle
version `0.0.1` and inherited PATH `BASEPATH`, the derived
`pythonEnvVarPath` is `C:\py\0.0.1;C:\py\0.0.1\Scripts;BASEPATH`: it does
not begin with the Scripts subdirectory (its first 19 characters differ
from `C:\py\0.0.1\Scripts`) and it differs from the claimed
`Scripts`-first value. -/
theorem envVarOrderCounterexample :
    (configurePackagePaths true "0.0.1" "BASEPATH"
        { stIdle with pythonInstallationPath := "C:\\py" }).pythonEnvVarPath
      = "C:\\py\\0.0.1;C:\\py\\0.0.1\\Scripts;BASEPATH"
    ∧ ((configurePackagePaths true "0.0.1" "BASEPATH"
        { stIdle with pythonInstallationPath := "C:\\py" }).pythonEnvVarPath).data.take 19
      ≠ ("C:\\py\\0.0.1\\Scripts").data
    ∧ "C:\\py\\0.0.1;C:\\py\\0.0.1\\Scripts;BASEPATH"
      ≠ "C:\\py\\0.0.1\\Scripts" ++ ";" ++ "C:\\py\\0.0.1" ++ ";" ++ "BASEPATH" :=
  ⟨rfl, by decide, by decide⟩

/-- C2 (amended): on Windows `pythonEnvVarPath` begins with the
bin-equivalent path `{installPath}\{bundleVersion}`, followed by the
delimiter and the `Scripts` subdirectory, followed by the inherited PATH
(the source prepends `Scripts` first and then prepends `binPath` in front
of it); on non-Windows platforms it begins with
`{installPath}/{bundleVersion}/bin` followed by the delimiter and the
inherited PATH. -/
theorem envVarOrderAmended (bundleVersion envPath : String) (st : InstallerState)
    (hP : st.pythonInstallationPath ≠ "") (hB : bundleVersion ≠ "") :
    (configurePackagePaths true bundleVersion envPath st).pythonEnvVarPath
        = (st.pythonInstallationPath ++ "\\" ++ bundleVersion) ++ ";" ++
          (st.pythonInstallationPath ++ "\\" ++ bundleVersion ++ "\\" ++ "Scripts") ++ ";" ++ envPath
    ∧ (configurePackagePaths false bundleVersion envPath st).pythonEnvVarPath
        = (st.pythonInstallationPath ++ "/" ++ bundleVersion ++ "/" ++ "bin") ++ ":" ++ envPath := by
  have hW1 : pathJoin true [st.pythonInstallationPath, bundleVersion]
      = st.pythonInstallationPath ++ "\\" ++ bundleVersion :=
    pathJoin_pair true _ _ hP hB
  have hWsrc : st.pythonInstallationPath ++ "\\" ++ bundleVersion ≠ "" :=
    append_ne_empty _ _ (append_ne_empty _ _ hP)
  have hW2 : pathJoin true [st.pythonInstallationPath ++ "\\" ++ bundleVersion, "Scripts"]
      = st.pythonInstallationPath ++ "\\" ++ bundleVersion ++ "\\" ++ "Scripts" :=
    pathJoin_pair true _ _ hWsrc (by decide)
  have hL1 : pathJoin false [st.pythonInstallationPath, bundleVersion]
      = st.pythonInstallationPath ++ "/" ++ bundleVersion :=
    pathJoin_pair false _ _ hP hB
  have hLsrc : st.pythonInstallationPath ++ "/" ++ bundleVersion ≠ "" :=
    append_ne_empty _ _ (append_ne_empty _ _ hP)
  have hL2 : pathJoin false [st.pythonInstallationPath ++ "/" ++ bundleVersion, "bin"]
      = st.pythonInstallationPath ++ "/" ++ bundleVersion ++ "/" ++ "bin" :=
    pathJoin_pair false _ _ hLsrc (by decide)
  constructor
  · have e1 : (configurePackagePaths true bundleVersion envPath st).pythonEnvVarPath
        = pathJoin true [pathJoin true [st.pythonInstallationPath, bundleVersion], ""] ++ ";" ++
          (pathJoin true [pathJoin true [st.pythonInstallationPath, bundleVersion], "Scripts"] ++
            ";" ++ envPath) := rfl
    rw [e1, hW1, hW2, pathJoin_pair_empty]
    simp [String.append_assoc]
  · have e2 : (configurePackagePaths false bundleVersion envPath st).pythonEnvVarPath
        = pathJoin false [pathJoin false [st.pythonInstallationPath, bundleVersion], "bin"] ++
            ":" ++ envPath := rfl
    rw [e2, hL1, hL2]

/-- Witness for `envVarOrderAmended` at installation path `C:\py`,
bundle version `0.0.1` and PATH `BASEPATH`. -/
theorem envVarOrderAmendedWitness :
    (configurePackagePaths true "0.0.1" "BASEPATH"
        { stIdle with pythonInstallationPath := "C:\\py" }).pythonEnvVarPath
      = ("C:\\py" ++ "\\" ++ "0.0.1") ++ ";" ++
        ("C:\\py" ++ "\\" ++ "0.0.1" ++ "\\" ++ "Scripts") ++ ";" ++ "BASEPATH" :=
  (envVarOrderAmended "0.0.1" "BASEPATH"
    { stIdle with pythonInstallationPath := "C:\\py" } (by decide) (by decide)).1

/-- C6: `startInstallProcess` checks its guards in order — the
running-check first (rejecting with the `RuntimeInUse` message regardless
of the in-progress flag), then the in-progress guard (rejecting with the
`InstallAlreadyInProgress` message) — and when either guard rejects, the
installer state is unchanged and no effect (in particular no background
task creation) has been performed. -/
theorem preflightGuards (sc : Scenario) (st : InstallerState)
    (forceInstall : Bool) (installationPath : Option String) :
    (isPythonRunning sc = true →
      startInstallProcess sc st forceInstall installationPath
        = { result := Except.error msgPythonRunningError, state := st, effects := [] })
    ∧ (isPythonRunning sc = false → st.installInProgress = true →
      startInstallProcess sc st forceInstall installationPath
        = { result := Except.error msgPendingInstallError, state := st, effects := [] }) := by
  constructor
  · intro h
    simp [startInstallProcess, h]
  · intro h1 h2
    simp [startInstallProcess, h1, h2]

/-- Witness for `preflightGuards`: a running python (`EBUSY`) rejects with
the running message even though an install is also flagged in progress;
an idle python with the flag set rejects with the pending message. -/
theorem preflightGuardsWitness :
    startInstallProcess { scBase with openErrCode := some "EBUSY" }
        { stIdle with installInProgress := true } false none
      = { result := Except.error msgPythonRunningError,
          state := { stIdle with installInProgress := true }, effects := [] }
    ∧ startInstallProcess scBase { stIdle with installInProgress := true } true (some "/x")
      = { result := Except.error msgPendingInstallError,
          state := { stIdle with installInProgress := true }, effects := [] } :=
  ⟨(preflightGuards _ _ _ _).1 rfl, (preflightGuards _ _ _ _).2 rfl rfl⟩

/-- C5: when the target executable already exists at the (possibly newly
supplied) installation path and `forceInstall` is false,
`startInstallProcess` resolves successfully and its only effect is writing
the installation path to the configuration store — no download, unpack or
subprocess step executes. -/
theorem skipBranchUpdatesConfig (sc : Scenario) (st : InstallerState)
    (installationPath : Option String)
    (hrun : isPythonRunning sc = false)
    (hprog : st.installInProgress = false)
    (hexists : sc.fsExists (getPythonExePath sc.isWin sc.bundleVersion
        (installationPath.getD st.pythonInstallationPath)) = true) :
    (startInstallProcess sc st false installationPath).result = Except.ok ()
    ∧ (startInstallProcess sc st false installationPath).effects
        = [Effect.updateConfig (installationPath.getD st.pythonInstallationPath)] := by
  constructor
  · simp [startInstallProcess, hrun, hprog, configurePackagePaths, hexists]
  · simp [startInstallProcess, hrun, hprog, configurePackagePaths, hexists]

/-- Witness for `skipBranchUpdatesConfig`: on Linux with the executable
present and a newly supplied path `/opt/py`, only the configuration is
written. -/
theorem skipBranchUpdatesConfigWitness :
    (startInstallProcess { scBase with fsExists := fun _ => true } stIdle
        false (some "/opt/py")).result = Except.ok ()
    ∧ (startInstallProcess { scBase with fsExists := fun _ => true } stIdle
        false (some "/opt/py")).effects = [Effect.updateConfig "/opt/py"] :=
  skipBranchUpdatesConfig { scBase with fsExists := fun _ => true } stIdle
    (some "/opt/py") rfl rfl rfl

/-- C1 (code bug): in the branch that skips the download because the
executable already exists and `forceInstall` is false, the promise
resolves successfully but `_installInProgress` — set to `true` earlier in
the call — is never cleared, so a subsequent `startInstallProcess` on the
same instance rejects with the `InstallAlreadyInProgress` message.  This
contradicts the claim that the guard is false again (cleared exactly once)
whenever the returned promise settles. -/
theorem skipBranchLeavesGuardSet :
    (startInstallProcess { scBase with fsExists := fun _ => true } stIdle false none).result
      = Except.ok ()
    ∧ (startInstallProcess { scBase with fsExists := fun _ => true } stIdle
        false none).state.installInProgress = true
    ∧ (startInstallProcess { scBase with fsExists := fun _ => true }
        (startInstallProcess { scBase with fsExists := fun _ => true } stIdle
          false none).state false none).result
      = Except.error msgPendingInstallError :=
  ⟨rfl, rfl, rfl⟩

/-- C4 (code bug): after a successful decompression the source initiates
`fs.unlink` of the archive and then calls `resolve()` immediately, so a
failure reported to the unlink callback can only call `reject` after the
promise has already resolved and its continuation — which emits the
`Succeeded` update — has drained.  With every other step succeeding and
the archive deletion failing with `EACCES`, the install attempt still
resolves successfully; the `Succeeded` update is emitted and the unlink
callback's in-progress unpack-error update lands after it as the trace's
last effect.  This contradicts the claim that a cleanup (archive-deletion)
error fails the attempt with an unpack error propagated to the caller. -/
theorem unlinkErrorIgnored :
    ({ scBase with unlinkErr := some "EACCES" } : Scenario).unlinkErr = some "EACCES"
    ∧ (startInstallProcess { scBase with unlinkErr := some "EACCES" } stIdle true none).result
      = Except.ok ()
    ∧ (startInstallProcess { scBase with unlinkErr := some "EACCES" } stIdle
        true none).effects.contains
        (Effect.updateStatus TaskStatus.succeeded msgInstallPkgFinish) = true
    ∧ (startInstallProcess { scBase with unlinkErr := some "EACCES" } stIdle
        true none).effects.getLast?
      = some (Effect.updateStatus TaskStatus.inProgress msgPythonUnpackError)
    ∧ (startInstallProcess { scBase with unlinkErr := some "EACCES" } stIdle
        true none).effects.contains
        (Effect.unlink "/home/u/py/python-3.6.6-linux-x64-0.0.1.tar.gz") = true :=
  ⟨rfl, rfl, rfl, rfl, rfl⟩

/-- C3 counterexample: with an HTTP 404 response (everything else
succeeding) the decompress step is still executed — the `response` handler
rejects without returning, the stream is still piped to the file and the
`close` handler still runs `decompress` — refuting the claim that the
unpack step is never executed after a non-200 response. -/
theorem non200StillUnpacksCounterexample :
    ({ scBase with statusCode := 404, statusMessage := "Not Found" } : Scenario).statusCode ≠ 200
    ∧ runsDecompress (startInstallProcess
        { scBase with statusCode := 404, statusMessage := "Not Found" }
        stIdle true none).effects = true :=
  ⟨by decide, rfl⟩

/-- C3 (amended): for every download attempt whose HTTP response has a
status code other than 200, the install pipeline fails with a download
error carrying the response's status message and the background task
receives a `Failed` status update with the formatted message; the unpack
(decompress) step, however, is still executed when the piped stream closes
after the rejection's continuation has drained — its outcome cannot affect
the already-rejected promise — and the `Failed` update is the task's last
status update provided none of the trailing unpack steps (stale-copy
removal, decompression, archive deletion) itself fails. -/
theorem non200DownloadFails (sc : Scenario) (st : InstallerState)
    (forceInstall : Bool) (installationPath : Option String)
    (hrun : isPythonRunning sc = false) (hprog : st.installInProgress = false)
    (hmk : sc.mkdirsErr = none) (htr : sc.transportErr = none)
    (hsc : sc.statusCode ≠ 200)
    (hneed : (!(sc.fsExists (getPythonExePath sc.isWin sc.bundleVersion
        (installationPath.getD st.pythonInstallationPath))) || forceInstall) = true) :
    (startInstallProcess sc st forceInstall installationPath).result
        = Except.error (msgDependenciesInstallationFailed sc.statusMessage)
    ∧ Effect.updateStatus TaskStatus.failed (msgDependenciesInstallationFailed sc.statusMessage)
        ∈ (startInstallProcess sc st forceInstall installationPath).effects
    ∧ runsDecompress (startInstallProcess sc st forceInstall installationPath).effects
        = true
    ∧ (sc.removeSyncErr = none → sc.decompressErr = none → sc.unlinkErr = none →
        lastUpdateStatus (startInstallProcess sc st forceInstall installationPath).effects
          = some TaskStatus.failed) := by
  have hpkg := installPythonPackage_non200 sc (configurePackagePaths sc.isWin sc.bundleVersion
      sc.envPath
      { st with
          installInProgress := true
          forceInstall := forceInstall
          pythonInstallationPath := installationPath.getD st.pythonInstallationPath })
      hmk htr hsc
  have hcond2 : (!(sc.fsExists (configurePackagePaths sc.isWin sc.bundleVersion sc.envPath
      { st with
          installInProgress := true
          forceInstall := forceInstall
          pythonInstallationPath := installationPath.getD st.pythonInstallationPath }).pythonExecutable)
      || (configurePackagePaths sc.isWin sc.bundleVersion sc.envPath
      { st with
          installInProgress := true
          forceInstall := forceInstall
          pythonInstallationPath := installationPath.getD st.pythonInstallationPath }).forceInstall) = true := hneed
  have hdep_res : (installDependencies sc (configurePackagePaths sc.isWin sc.bundleVersion
      sc.envPath
      { st with
          installInProgress := true
          forceInstall := forceInstall
          pythonInstallationPath := installationPath.getD st.pythonInstallationPath })).result
      = Except.error sc.statusMessage := by
    simp [installDependencies, hcond2, hpkg]
  have hdep_post : (installDependencies sc (configurePackagePaths sc.isWin sc.bundleVersion
      sc.envPath
      { st with
          installInProgress := true
          forceInstall := forceInstall
          pythonInstallationPath := installationPath.getD st.pythonInstallationPath })).post
      = (installPythonPackage sc (configurePackagePaths sc.isWin sc.bundleVersion sc.envPath
      { st with
          installInProgress := true
          forceInstall := forceInstall
          pythonInstallationPath := installationPath.getD st.pythonInstallationPath })).post := by
    simp [installDependencies, hcond2, hpkg]
  have hrd := runsDecompress_post_non200 sc (configurePackagePaths sc.isWin sc.bundleVersion
      sc.envPath
      { st with
          installInProgress := true
          forceInstall := forceInstall
          pythonInstallationPath := installationPath.getD st.pythonInstallationPath })
      hmk htr hsc
  refine ⟨?_, ?_, ?_, ?_⟩
  · simp [startInstallProcess, hrun, hprog, hcond2, hdep_res]
  · simp [startInstallProcess, hrun, hprog, hcond2, hdep_res, List.mem_cons, List.mem_append]
  · simp only [runsDecompress] at hrd
    simp [startInstallProcess, hrun, hprog, hcond2, hdep_res, hdep_post, runsDecompress,
      isDecompressEffect, List.any_append, List.any_cons, hrd]
  · intro hrm hdc hul
    have hclean := statusUpdates_post_clean sc (configurePackagePaths sc.isWin sc.bundleVersion
        sc.envPath
        { st with
            installInProgress := true
            forceInstall := forceInstall
            pythonInstallationPath := installationPath.getD st.pythonInstallationPath })
        hmk htr hsc hrm hdc hul
    rw [hdep_post.symm] at hclean
    simp only [startInstallProcess, hrun, hprog, hcond2, hdep_res, Bool.false_eq_true,
      if_false, if_true]
    exact lastUpdateStatus_failed_last _ _ _ _ hclean

/-- Witness for `non200DownloadFails`: a 404 response on Linux with
`forceInstall = true` and no trailing unpack-step failure. -/
theorem non200DownloadFailsWitness :
    (startInstallProcess { scBase with statusCode := 404, statusMessage := "Not Found" }
        stIdle true none).result
      = Except.error (msgDependenciesInstallationFailed "Not Found")
    ∧ Effect.updateStatus TaskStatus.failed (msgDependenciesInstallationFailed "Not Found")
        ∈ (startInstallProcess { scBase with statusCode := 404, statusMessage := "Not Found" }
          stIdle true none).effects
    ∧ runsDecompress (startInstallProcess
        { scBase with statusCode := 404, statusMessage := "Not Found" }
        stIdle true none).effects = true
    ∧ lastUpdateStatus (startInstallProcess
        { scBase with statusCode := 404, statusMessage := "Not Found" }
        stIdle true none).effects = some TaskStatus.failed :=
  ⟨(non200DownloadFails { scBase with statusCode := 404, statusMessage := "Not Found" }
      stIdle true none rfl rfl rfl rfl (by decide) rfl).1,
   (non200DownloadFails { scBase with statusCode := 404, statusMessage := "Not Found" }
      stIdle true none rfl rfl rfl rfl (by decide) rfl).2.1,
   (non200DownloadFails { scBase with statusCode := 404, statusMessage := "Not Found" }
      stIdle true none rfl rfl rfl rfl (by decide) rfl).2.2.1,
   (non200DownloadFails { scBase with statusCode := 404, statusMessage := "Not Found" }
      stIdle true none rfl rfl rfl rfl (by decide) rfl).2.2.2 rfl rfl rfl⟩

/-- C8: assuming the file system is ancestor-closed at the recorded path
(if the executable under a directory exists, the directory exists),
`isPythonInstalled` returns true if and only if the configuration store
has a recorded installation path and an executable exists at the
platform-specific sub-path (`bundleVersion/python.exe` or
`bundleVersion/bin/python3`) under that recorded path; being a static
function of the store and the file system only, it never consults the
installer instance's in-memory state. -/
theorem isPythonInstalledIff (isWin : Bool) (bundleVersion : String)
    (fsys : String → Bool) (api : Option ApiWrapper)
    (hcoh : ∀ p, recordedPythonPath api = some p →
        fsys (getPythonExePath isWin bundleVersion p) = true → fsys p = true) :
    isPythonInstalled isWin bundleVersion fsys api = true
      ↔ ∃ p, recordedPythonPath api = some p
          ∧ fsys (getPythonExePath isWin bundleVersion p) = true := by
  cases api with
  | none => simp [isPythonInstalled, getPythonPathSetting, recordedPythonPath]
  | some a =>
    cases ha : a.notebookConfig with
    | none => simp [isPythonInstalled, getPythonPathSetting, recordedPythonPath, ha]
    | some c =>
      cases hc : c.pythonPath with
      | none => simp [isPythonInstalled, getPythonPathSetting, recordedPythonPath, ha, hc]
      | some p =>
        have hrec : recordedPythonPath (some a) = some p := by
          simp [recordedPythonPath, ha, hc]
        by_cases hf : fsys p = true
        · constructor
          · intro h
            refine ⟨p, hrec, ?_⟩
            simpa [isPythonInstalled, getPythonPathSetting, ha, hc, hf] using h
          · intro h
            obtain ⟨q, hq, hexe⟩ := h
            rw [hrec] at hq
            obtain rfl : p = q := by
              exact Option.some.inj hq
            simp [isPythonInstalled, getPythonPathSetting, ha, hc, hf, hexe]
        · constructor
          · intro h
            simp [isPythonInstalled, getPythonPathSetting, ha, hc, hf] at h
          · intro h
            obtain ⟨q, hq, hexe⟩ := h
            rw [hrec] at hq
            obtain rfl : p = q := Option.some.inj hq
            exact absurd (hcoh p hrec hexe) hf

open DefaultWorkerFactory

/-- Invariant preservation for `DefaultWorkerFactory.run`: created ids
stay strictly increasing and bounded by the id counter. -/
theorem run_preserves (events : List FactoryEvent) :
    ∀ s : FactoryState, List.Pairwise (· < ·) s.createdIds →
      (∀ i ∈ s.createdIds, i ≤ s.lastWorkerId) →
      List.Pairwise (· < ·) (DefaultWorkerFactory.run s events).1.createdIds
      ∧ ∀ i ∈ (DefaultWorkerFactory.run s events).1.createdIds,
          i ≤ (DefaultWorkerFactory.run s events).1.lastWorkerId := by
  induction events with
  | nil =>
    intro s h1 h2
    exact ⟨h1, h2⟩
  | cons ev rest ih =>
    intro s h1 h2
    cases ev with
    | createCall =>
      cases hfe : s.webWorkerFailedBeforeError with
      | some e =>
          have h' := ih { s with lastWorkerId := s.lastWorkerId + 1 } h1
            (fun i hi => Nat.le_trans (h2 i hi) (Nat.le_succ _))
          simpa [DefaultWorkerFactory.run, DefaultWorkerFactory.create, hfe] using h'
      | none =>
          have hp : List.Pairwise (· < ·) (s.createdIds ++ [s.lastWorkerId + 1]) := by
            rw [List.pairwise_append]
            refine ⟨h1, List.pairwise_singleton _ _, ?_⟩
            intro x hx y hy
            simp only [List.mem_singleton] at hy
            subst hy
            exact Nat.lt_succ_of_le (h2 x hx)
          have hb : ∀ i ∈ s.createdIds ++ [s.lastWorkerId + 1], i ≤ s.lastWorkerId + 1 := by
            intro i hi
            rcases List.mem_append.1 hi with h | h
            · exact Nat.le_trans (h2 i h) (Nat.le_succ _)
            · simp only [List.mem_singleton] at h
              subst h
              exact Nat.le_refl _
          have h' := ih
            { s with lastWorkerId := s.lastWorkerId + 1, createdIds := s.createdIds ++ [s.lastWorkerId + 1] }
            hp hb
          simpa [DefaultWorkerFactory.run, DefaultWorkerFactory.create, hfe] using h'
    | errorFired err =>
      have h' := ih (fireError s err) h1 h2
      simpa [DefaultWorkerFactory.run] using h'

/-- After an error has been recorded, event sequences without further
error events construct no worker and every `create` throws the recorded
error. -/
theorem run_after_error (t : List FactoryEvent) :
    ∀ (s : FactoryState) (e : String), s.webWorkerFailedBeforeError = some e →
      (∀ ev ∈ t, DefaultWorkerFactory.isErrorFired ev = false) →
      (DefaultWorkerFactory.run s t).1.createdIds = s.createdIds
      ∧ ∀ r ∈ (DefaultWorkerFactory.run s t).2, r = Except.error e := by
  induction t with
  | nil =>
    intro s e he hne
    exact ⟨rfl, by simp [DefaultWorkerFactory.run]⟩
  | cons ev rest ih =>
    intro s e he hne
    cases ev with
    | createCall =>
      have h' := ih
        { s with lastWorkerId := s.lastWorkerId + 1, webWorkerFailedBeforeError := some e }
        e rfl (fun x hx => hne x (List.mem_cons_of_mem _ hx))
      constructor
      · simpa [DefaultWorkerFactory.run, DefaultWorkerFactory.create, he] using h'.1
      · intro r hr
        simp only [DefaultWorkerFactory.run, DefaultWorkerFactory.create, he,
          List.mem_cons] at hr
        rcases hr with h | h
        · subst h; rfl
        · exact h'.2 r h
    | errorFired err =>
      exact absurd (hne _ (List.mem_cons_self _ _)) (by simp [isErrorFired])

/-- C9: for every `DefaultWorkerFactory` instance, once the error callback
of any worker it created has fired (recording the error), every subsequent
`create` call throws the recorded error and constructs no new worker;
until then, each `create` returns a worker whose id is strictly greater
than that of every previously created worker (the created ids are pairwise
strictly increasing). -/
theorem workerFactorySpec :
    (∀ events : List FactoryEvent,
      List.Pairwise (· < ·)
        (DefaultWorkerFactory.run initFactory events).1.createdIds)
    ∧ ∀ (s : FactoryState) (e : String) (t : List FactoryEvent),
        s.webWorkerFailedBeforeError = some e →
        (∀ ev ∈ t, DefaultWorkerFactory.isErrorFired ev = false) →
        (DefaultWorkerFactory.run s t).1.createdIds = s.createdIds
        ∧ ∀ r ∈ (DefaultWorkerFactory.run s t).2, r = Except.error e := by
  constructor
  · intro events
    exact (run_preserves events initFactory (by simp [initFactory]) (by simp [initFactory])).1
  · intro s e t he hne
    exact run_after_error t s e he hne

/-- Witness for `workerFactorySpec`: two creates on a fresh factory, and a
create after a recorded error `boom`. -/
theorem workerFactorySpecWitness :
    List.Pairwise (· < ·)
      (DefaultWorkerFactory.run initFactory
        [FactoryEvent.createCall, FactoryEvent.createCall]).1.createdIds
    ∧ ((DefaultWorkerFactory.run
          { lastWorkerId := 2, webWorkerFailedBeforeError := some "boom", createdIds := [1, 2] }
          [FactoryEvent.createCall]).1.createdIds = [1, 2]
        ∧ ∀ r ∈ (DefaultWorkerFactory.run
            { lastWorkerId := 2, webWorkerFailedBeforeError := some "boom", createdIds := [1, 2] }
            [FactoryEvent.createCall]).2, r = Except.error "boom") := by
  refine ⟨workerFactorySpec.1 _, workerFactorySpec.2 _ "boom" _ rfl ?_⟩
  decide

/-- Witness for `isPythonInstalledIff`: a store recording `/py` with the
Linux executable present. -/
theorem isPythonInstalledIffWitness :
    isPythonInstalled false "0.0.1"
      (fun s => s == "/py" || s == "/py/0.0.1/bin/python3")
      (some { notebookConfig := some { pythonPath := some "/py" } }) = true :=
  (isPythonInstalledIff false "0.0.1"
      (fun s => s == "/py" || s == "/py/0.0.1/bin/python3")
      (some { notebookConfig := some { pythonPath := some "/py" } })
      (fun p hp _ => by
        have hp2 : p = "/py" := (Option.some.inj hp).symm
        subst hp2
        rfl)).mpr ⟨"/py", rfl, rfl⟩
